import Mathlib

/-!
Lobby service provider object (`dlls/dplayx/lobbysp.c`).

A shallow embedding of the construction, reference counting, teardown and
dispatch code of the DirectPlay lobby service provider object, followed by
theorems about it.

Conventions of the embedding.

* Memory is an explicit `Heap` value threaded through every function.  A
  pointer is a natural number, `NULL` is `0`.
* A C function that can dereference a pointer returns `Except Fault _`: the
  `error` results are the accesses through a null or dangling pointer that the
  C code would perform.
* The process heap is an external service.  Its behaviour is driven by
  `Heap.plan`, the list of answers it will give to the coming `HeapAlloc`
  requests (`none`: out of memory, `some p`: the block is placed at `p`).
* `Heap.trace` records the allocator and critical-section calls in the order
  they are made.
* `LONG ref` is an `Int` kept in the 32-bit signed range by `wrapLONG`;
  the `ULONG` values returned by `AddRef`/`Release` are naturals below `2^32`.
* `REFIID` arguments are passed by value; an out-parameter (`ppvObj`, `ppv`)
  is returned as a component of the result.
* The `TRACE`/`FIXME` debug-channel output is not part of the state.
-/

namespace LobbySP

/-! ## Data model -/

/-- Machine address; `0` is the null pointer. -/
abbrev Ptr := Nat

/-- The null pointer. -/
def NULL : Ptr := 0

/-- Modelled from the spec: the type of capability identifiers (`GUID`),
declared in a system header that is not under `src/`. -/
structure GUID where
  Data1 : Nat
  Data2 : Nat
  Data3 : Nat
  Data4 : List Nat
deriving DecidableEq

/-- Modelled from the spec: the identifier of the base reference-counting
capability (`IID_IUnknown`), declared in a system header that is not under
`src/`.  The spec treats identifiers as opaque fixed values. -/
def IID_IUnknown : GUID :=
  ⟨0x00000000, 0x0000, 0x0000, [0xC0, 0x00, 0x00, 0x00, 0x00, 0x00, 0x00, 0x46]⟩

/-- Modelled from the spec: the identifier of the single concrete capability
(`IID_IDPLobbySP`), declared in `lobbysp.h`, which is not under `src/`. -/
def IID_IDPLobbySP : GUID :=
  ⟨0x5a4e5a20, 0x2ced, 0x11d0, [0xa8, 0x89, 0x00, 0xa0, 0xc9, 0x05, 0x43, 0x3c]⟩

/-- Modelled from the spec: value comparison of two identifiers
(`IsEqualGUID`), declared in a system header that is not under `src/`. -/
def IsEqualGUID (a b : GUID) : Bool := decide (a = b)

/-- Modelled from the spec: the status codes of section 6 (`Ok`,
`OutOfMemory`, `UnsupportedCapability`); the `HRESULT` macros used by the
source are declared in headers that are not under `src/`. -/
inductive HRESULT where
  | Ok
  | OutOfMemory
  | UnsupportedCapability
deriving DecidableEq

/-- Modelled from the spec: `S_OK` is the status `Ok`. -/
def S_OK : HRESULT := HRESULT.Ok

/-- Modelled from the spec: `DP_OK` is the status `Ok`. -/
def DP_OK : HRESULT := HRESULT.Ok

/-- Modelled from the spec: `DPERR_OUTOFMEMORY` is the status `OutOfMemory`. -/
def DPERR_OUTOFMEMORY : HRESULT := HRESULT.OutOfMemory

/-- Modelled from the spec: `DPERR_NOMEMORY` is the status `OutOfMemory`. -/
def DPERR_NOMEMORY : HRESULT := HRESULT.OutOfMemory

/-- Modelled from the spec: `E_NOINTERFACE` is the status
`UnsupportedCapability`. -/
def E_NOINTERFACE : HRESULT := HRESULT.UnsupportedCapability

/-- Value of a `const IDPLobbySPVtbl *`: null (zeroed memory) or the address
of the one static table `dpLobbySPVT`. -/
inductive VtblPtr where
  | null
  | dpLobbySPVT
deriving DecidableEq

/-- Modelled from the spec: the debug record of the lock
(`RTL_CRITICAL_SECTION_DEBUG`, declared in a system header that is not under
`src/`); only `Spare[0]` is touched by the source (`none` is the value `0`,
`some s` the address of the literal `s`). -/
structure RTL_CRITICAL_SECTION_DEBUG where
  Spare0 : Option String
deriving DecidableEq

/-- Modelled from the spec: the mutual-exclusion lock (`CRITICAL_SECTION`,
declared in a system header that is not under `src/`).  `DebugInfo` is `none`
while the section is not initialised (zeroed memory, or after
`DeleteCriticalSection`). -/
structure CRITICAL_SECTION where
  DebugInfo : Option RTL_CRITICAL_SECTION_DEBUG
deriving DecidableEq

/-- The C struct `DPLobbySPIUnknownData` (the LockResource). -/
structure DPLobbySPIUnknownData where
  DPLSP_lock : CRITICAL_SECTION
deriving DecidableEq

/-- The C struct `DPLobbySPData` (the SessionBinding). -/
structure DPLobbySPData where
  dplay : Ptr
deriving DecidableEq

/-- The C struct `IDPLobbySPImpl` (the handle shell). -/
structure IDPLobbySPImpl where
  lpVtbl : VtblPtr
  ref : Int
  unk : Ptr
  sp : Ptr
deriving DecidableEq

/-- The `sizeof` argument of an allocation: which struct the block holds. -/
inductive BlockKind where
  | impl
  | unk
  | sp
deriving DecidableEq

/-- Contents of a live heap block. -/
inductive Block where
  | impl (o : IDPLobbySPImpl)
  | unk (d : DPLobbySPIUnknownData)
  | sp (d : DPLobbySPData)
deriving DecidableEq

/-- A block of the given kind as `HEAP_ZERO_MEMORY` returns it. -/
def zeroed : BlockKind → Block
  | BlockKind.impl => Block.impl ⟨VtblPtr.null, 0, NULL, NULL⟩
  | BlockKind.unk => Block.unk ⟨⟨none⟩⟩
  | BlockKind.sp => Block.sp ⟨NULL⟩

/-- Calls made to the external services, in program order. -/
inductive Event where
  | alloc (k : BlockKind) (p : Ptr)
  | free (p : Ptr)
  | csInit (p : Ptr)
  | csDelete (p : Ptr)
deriving DecidableEq

/-- An access the C code performs through an unusable pointer. -/
inductive Fault where
  | nullDeref
  | badPointer
  | badFree
deriving DecidableEq

/-- Process memory: the live blocks, the coming answers of the allocator and
the record of service calls. -/
structure Heap where
  cells : List (Ptr × Block)
  plan : List (Option Ptr)
  trace : List Event
deriving DecidableEq

/-- The block stored at `p`, if `p` is live. -/
def find? : List (Ptr × Block) → Ptr → Option Block
  | [], _ => none
  | (q, b) :: rest, p => if q = p then some b else find? rest p

/-- Overwrite the block stored at `p`. -/
def store : List (Ptr × Block) → Ptr → Block → List (Ptr × Block)
  | [], _, _ => []
  | (q, b) :: rest, p, v => if q = p then (q, v) :: rest else (q, b) :: store rest p v

/-- Drop the block stored at `p`. -/
def remove : List (Ptr × Block) → Ptr → List (Ptr × Block)
  | [], _ => []
  | (q, b) :: rest, p => if q = p then remove rest p else (q, b) :: remove rest p

/-! ## External services -/

/-- Modelled from the spec: the allocate-and-zero service of the host
allocator, `HeapAlloc( GetProcessHeap(), HEAP_ZERO_MEMORY, sizeof(..) )`, which
is not under `src/`.  A request consumes one answer of the plan and returns
the address of a zeroed block or null.  The allocator never hands out the null
address or a live address; such an answer counts as a failure. -/
def HeapAlloc (h : Heap) (k : BlockKind) : Ptr × Heap :=
  match h.plan with
  | [] => (NULL, h)
  | none :: rest => (NULL, { h with plan := rest })
  | some p :: rest =>
    if p ≠ NULL ∧ find? h.cells p = none then
      (p, { cells := (p, zeroed k) :: h.cells, plan := rest,
            trace := h.trace ++ [Event.alloc k p] })
    else (NULL, { h with plan := rest })

/-- Modelled from the spec: the free service of the host allocator,
`HeapFree( GetProcessHeap(), 0, p )`, which is not under `src/`.  A null `p`
is accepted and ignored, a pointer that is not live is a fault. -/
def HeapFree (h : Heap) (p : Ptr) : Except Fault Heap :=
  if p = NULL then Except.ok h
  else
    match find? h.cells p with
    | some _ =>
      Except.ok { h with cells := remove h.cells p, trace := h.trace ++ [Event.free p] }
    | none => Except.error Fault.badFree

/-! ## Typed memory accesses -/

/-- Read the `IDPLobbySPImpl` at `p`. -/
def loadImpl (h : Heap) (p : Ptr) : Except Fault IDPLobbySPImpl :=
  if p = NULL then Except.error Fault.nullDeref
  else
    match find? h.cells p with
    | some (Block.impl o) => Except.ok o
    | _ => Except.error Fault.badPointer

/-- Update fields of the `IDPLobbySPImpl` at `p`. -/
def storeImpl (h : Heap) (p : Ptr) (f : IDPLobbySPImpl → IDPLobbySPImpl) :
    Except Fault Heap :=
  match loadImpl h p with
  | Except.ok o => Except.ok { h with cells := store h.cells p (Block.impl (f o)) }
  | Except.error e => Except.error e

/-- Read the `DPLobbySPIUnknownData` at `p`. -/
def loadUnk (h : Heap) (p : Ptr) : Except Fault DPLobbySPIUnknownData :=
  if p = NULL then Except.error Fault.nullDeref
  else
    match find? h.cells p with
    | some (Block.unk d) => Except.ok d
    | _ => Except.error Fault.badPointer

/-- Update the `DPLobbySPIUnknownData` at `p`. -/
def storeUnk (h : Heap) (p : Ptr) (f : DPLobbySPIUnknownData → DPLobbySPIUnknownData) :
    Except Fault Heap :=
  match loadUnk h p with
  | Except.ok d => Except.ok { h with cells := store h.cells p (Block.unk (f d)) }
  | Except.error e => Except.error e

/-- Read the `DPLobbySPData` at `p`. -/
def loadSp (h : Heap) (p : Ptr) : Except Fault DPLobbySPData :=
  if p = NULL then Except.error Fault.nullDeref
  else
    match find? h.cells p with
    | some (Block.sp d) => Except.ok d
    | _ => Except.error Fault.badPointer

/-- Update the `DPLobbySPData` at `p`. -/
def storeSp (h : Heap) (p : Ptr) (f : DPLobbySPData → DPLobbySPData) :
    Except Fault Heap :=
  match loadSp h p with
  | Except.ok d => Except.ok { h with cells := store h.cells p (Block.sp (f d)) }
  | Except.error e => Except.error e

/-- Modelled from the spec: the lock primitive
`InitializeCriticalSection( &u->DPLSP_lock )`, which is not under `src/`, for
the block at `u`: the section gets a fresh debug record. -/
def InitializeCriticalSection (h : Heap) (u : Ptr) : Except Fault Heap :=
  match storeUnk h u (fun d => { d with DPLSP_lock := ⟨some ⟨none⟩⟩ }) with
  | Except.ok h1 => Except.ok { h1 with trace := h1.trace ++ [Event.csInit u] }
  | Except.error e => Except.error e

/-- Modelled from the spec: the lock primitive
`DeleteCriticalSection( &u->DPLSP_lock )`, which is not under `src/`, for the
block at `u`: the debug record is released. -/
def DeleteCriticalSection (h : Heap) (u : Ptr) : Except Fault Heap :=
  match storeUnk h u (fun d => { d with DPLSP_lock := ⟨none⟩ }) with
  | Except.ok h1 => Except.ok { h1 with trace := h1.trace ++ [Event.csDelete u] }
  | Except.error e => Except.error e

/-- The assignment `u->DPLSP_lock.DebugInfo->Spare[0] = v`: reads the block at
`u`, then writes through its `DebugInfo` pointer. -/
def storeSpare0 (h : Heap) (u : Ptr) (v : Option String) : Except Fault Heap :=
  match loadUnk h u with
  | Except.ok d =>
    match d.DPLSP_lock.DebugInfo with
    | some _ => storeUnk h u (fun d => { d with DPLSP_lock := ⟨some ⟨v⟩⟩ })
    | none => Except.error Fault.nullDeref
  | Except.error e => Except.error e

/-- The name stored in `Spare[0]` of the lock. -/
def DPLSP_lock_name : String :=
  "lobbysp.c: IDPLobbySPImpl*->DPLobbySPIUnknownData*->DPLSP_lock"

/-! ## 32-bit counters -/

/-- Reduce an integer to the range of `LONG`. -/
def wrapLONG (x : Int) : Int := (x + 2147483648) % 4294967296 - 2147483648

/-- Conversion of a `LONG` to `ULONG`. -/
def toULONG (x : Int) : Nat := (x % 4294967296).toNat

/-- Modelled from the spec: the atomic increment primitive
`InterlockedIncrement( &This->ref )`, which is not under `src/`; it stores
and returns the incremented value, reduced to the range of `LONG`. -/
def InterlockedIncrement (h : Heap) (This : Ptr) : Except Fault (Int × Heap) :=
  match loadImpl h This with
  | Except.ok o =>
    match storeImpl h This (fun o => { o with ref := wrapLONG (o.ref + 1) }) with
    | Except.ok h1 => Except.ok (wrapLONG (o.ref + 1), h1)
    | Except.error e => Except.error e
  | Except.error e => Except.error e

/-- Modelled from the spec: the atomic decrement primitive
`InterlockedDecrement( &This->ref )`, which is not under `src/`; it stores
and returns the decremented value, reduced to the range of `LONG`. -/
def InterlockedDecrement (h : Heap) (This : Ptr) : Except Fault (Int × Heap) :=
  match loadImpl h This with
  | Except.ok o =>
    match storeImpl h This (fun o => { o with ref := wrapLONG (o.ref - 1) }) with
    | Except.ok h1 => Except.ok (wrapLONG (o.ref - 1), h1)
    | Except.error e => Except.error e
  | Except.error e => Except.error e

/-! ## The program -/

/-- The C function `impl_from_IDPLobbySP`: `CONTAINING_RECORD` over the first
field, `lpVtbl`, whose offset is zero. -/
def impl_from_IDPLobbySP (iface : Ptr) : Ptr := iface - 0

/-- The C function `DPLSP_CreateIUnknown`. -/
def DPLSP_CreateIUnknown (h : Heap) (lpSP : Ptr) : Except Fault (Bool × Heap) := do
  let This := lpSP
  let a := HeapAlloc h BlockKind.unk
  let h1 ← storeImpl a.2 This (fun o => { o with unk := a.1 })
  if (← loadImpl h1 This).unk = NULL then
    pure (false, h1)
  else do
    let h2 ← InitializeCriticalSection h1 (← loadImpl h1 This).unk
    let h3 ← storeSpare0 h2 (← loadImpl h2 This).unk (some DPLSP_lock_name)
    pure (true, h3)

/-- The C function `DPLSP_DestroyIUnknown`. -/
def DPLSP_DestroyIUnknown (h : Heap) (lpSP : Ptr) : Except Fault (Bool × Heap) := do
  let This := lpSP
  let h1 ← storeSpare0 h (← loadImpl h This).unk none
  let h2 ← DeleteCriticalSection h1 (← loadImpl h1 This).unk
  let h3 ← HeapFree h2 (← loadImpl h2 This).unk
  pure (true, h3)

/-- The C function `DPLSP_CreateDPLobbySP`. -/
def DPLSP_CreateDPLobbySP (h : Heap) (lpSP : Ptr) (dp : Ptr) :
    Except Fault (Bool × Heap) := do
  let This := lpSP
  let a := HeapAlloc h BlockKind.sp
  let h1 ← storeImpl a.2 This (fun o => { o with sp := a.1 })
  if (← loadImpl h1 This).sp = NULL then
    pure (false, h1)
  else do
    let h2 ← storeSp h1 (← loadImpl h1 This).sp (fun d => { d with dplay := dp })
    pure (true, h2)

/-- The C function `DPLSP_DestroyDPLobbySP`. -/
def DPLSP_DestroyDPLobbySP (h : Heap) (lpSP : Ptr) : Except Fault (Bool × Heap) := do
  let This := lpSP
  let h1 ← HeapFree h (← loadImpl h This).sp
  pure (true, h1)

/-- The C function `IDPLobbySPImpl_AddRef`. -/
def IDPLobbySPImpl_AddRef (h : Heap) (iface : Ptr) : Except Fault (Nat × Heap) := do
  let This := impl_from_IDPLobbySP iface
  let r ← InterlockedIncrement h This
  let ref : Nat := toULONG r.1
  pure (ref, r.2)

/-- The C function `IDPLobbySPImpl_Release`. -/
def IDPLobbySPImpl_Release (h : Heap) (iface : Ptr) : Except Fault (Nat × Heap) := do
  let This := impl_from_IDPLobbySP iface
  let r ← InterlockedDecrement h This
  let ref : Nat := toULONG r.1
  if ref = 0 then do
    let d1 ← DPLSP_DestroyDPLobbySP r.2 This
    let d2 ← DPLSP_DestroyIUnknown d1.2 This
    let h3 ← HeapFree d2.2 This
    pure (ref, h3)
  else
    pure (ref, r.2)

/-- Modelled from the spec: the call `IDPLobbySP_AddRef(p)`, a macro of
`lobbysp.h`, which is not under `src/`, standing for `(p)->lpVtbl->AddRef(p)`:
the method is found through the table pointer of the object, and the `AddRef`
slot of `dpLobbySPVT` holds `IDPLobbySPImpl_AddRef`. -/
def IDPLobbySP_AddRef (h : Heap) (p : Ptr) : Except Fault (Nat × Heap) := do
  match (← loadImpl h p).lpVtbl with
  | VtblPtr.null => Except.error Fault.nullDeref
  | VtblPtr.dpLobbySPVT => IDPLobbySPImpl_AddRef h p

/-- The C function `DPLSP_CreateInterface`; the result carries the status,
the final value of `*ppvObj` and the memory. -/
def DPLSP_CreateInterface (h : Heap) (riid : GUID) (dp : Ptr) :
    Except Fault (HRESULT × Ptr × Heap) := do
  let a := HeapAlloc h BlockKind.impl
  let ppvObj := a.1
  if ppvObj = NULL then
    pure (DPERR_OUTOFMEMORY, ppvObj, a.2)
  else if IsEqualGUID IID_IDPLobbySP riid then do
    let This := ppvObj
    let h1 ← storeImpl a.2 This (fun o => { o with lpVtbl := VtblPtr.dpLobbySPVT })
    -- `DPLSP_CreateIUnknown( .. ) && DPLSP_CreateDPLobbySP( .. )`
    let c1 ← DPLSP_CreateIUnknown h1 ppvObj
    let c2 ← if c1.1 then DPLSP_CreateDPLobbySP c1.2 ppvObj dp else pure (false, c1.2)
    if c2.1 then do
      let r ← IDPLobbySP_AddRef c2.2 ppvObj
      pure (S_OK, ppvObj, r.2)
    else do
      -- Initialize failed, destroy it
      let d1 ← DPLSP_DestroyDPLobbySP c2.2 ppvObj
      let d2 ← DPLSP_DestroyIUnknown d1.2 ppvObj
      let h2 ← HeapFree d2.2 ppvObj
      pure (DPERR_NOMEMORY, NULL, h2)
  else do
    -- Unsupported interface
    let h1 ← HeapFree a.2 ppvObj
    pure (E_NOINTERFACE, NULL, h1)

/-- The C function `IDPLobbySPImpl_QueryInterface`; the result carries the
status, the value of `*ppv` and the memory. -/
def IDPLobbySPImpl_QueryInterface (h : Heap) (iface : Ptr) (riid : GUID) :
    Except Fault (HRESULT × Ptr × Heap) := do
  if IsEqualGUID IID_IUnknown riid || IsEqualGUID IID_IDPLobbySP riid then do
    let ppv := iface
    let r ← IDPLobbySP_AddRef h iface
    pure (S_OK, ppv, r.2)
  else
    pure (E_NOINTERFACE, NULL, h)

/-- The C function `IDPLobbySPImpl_AddGroupToGroup` (stub). -/
def IDPLobbySPImpl_AddGroupToGroup (h : Heap) (_iface : Ptr) (_argtg : Ptr) :
    HRESULT × Heap := (DP_OK, h)

/-- The C function `IDPLobbySPImpl_AddPlayerToGroup` (stub). -/
def IDPLobbySPImpl_AddPlayerToGroup (h : Heap) (_iface : Ptr) (_arptg : Ptr) :
    HRESULT × Heap := (DP_OK, h)

/-- The C function `IDPLobbySPImpl_CreateGroup` (stub). -/
def IDPLobbySPImpl_CreateGroup (h : Heap) (_iface : Ptr) (_crg : Ptr) :
    HRESULT × Heap := (DP_OK, h)

/-- The C function `IDPLobbySPImpl_CreateGroupInGroup` (stub). -/
def IDPLobbySPImpl_CreateGroupInGroup (h : Heap) (_iface : Ptr) (_crgig : Ptr) :
    HRESULT × Heap := (DP_OK, h)

/-- The C function `IDPLobbySPImpl_DeleteGroupFromGroup` (stub). -/
def IDPLobbySPImpl_DeleteGroupFromGroup (h : Heap) (_iface : Ptr) (_drgfg : Ptr) :
    HRESULT × Heap := (DP_OK, h)

/-- The C function `IDPLobbySPImpl_DeletePlayerFromGroup` (stub). -/
def IDPLobbySPImpl_DeletePlayerFromGroup (h : Heap) (_iface : Ptr) (_drpfg : Ptr) :
    HRESULT × Heap := (DP_OK, h)

/-- The C function `IDPLobbySPImpl_DestroyGroup` (stub). -/
def IDPLobbySPImpl_DestroyGroup (h : Heap) (_iface : Ptr) (_drg : Ptr) :
    HRESULT × Heap := (DP_OK, h)

/-- The C function `IDPLobbySPImpl_EnumSessionsResponse` (stub). -/
def IDPLobbySPImpl_EnumSessionsResponse (h : Heap) (_iface : Ptr) (_er : Ptr) :
    HRESULT × Heap := (DP_OK, h)

/-- The C function `IDPLobbySPImpl_GetSPDataPointer` (stub). -/
def IDPLobbySPImpl_GetSPDataPointer (h : Heap) (_iface : Ptr) (_lplpData : Ptr) :
    HRESULT × Heap := (DP_OK, h)

/-- The C function `IDPLobbySPImpl_HandleMessage` (stub). -/
def IDPLobbySPImpl_HandleMessage (h : Heap) (_iface : Ptr) (_hm : Ptr) :
    HRESULT × Heap := (DP_OK, h)

/-- The C function `IDPLobbySPImpl_SendChatMessage` (stub). -/
def IDPLobbySPImpl_SendChatMessage (h : Heap) (_iface : Ptr) (_cm : Ptr) :
    HRESULT × Heap := (DP_OK, h)

/-- The C function `IDPLobbySPImpl_SetGroupName` (stub). -/
def IDPLobbySPImpl_SetGroupName (h : Heap) (_iface : Ptr) (_srgn : Ptr) :
    HRESULT × Heap := (DP_OK, h)

/-- The C function `IDPLobbySPImpl_SetPlayerName` (stub). -/
def IDPLobbySPImpl_SetPlayerName (h : Heap) (_iface : Ptr) (_srpn : Ptr) :
    HRESULT × Heap := (DP_OK, h)

/-- The C function `IDPLobbySPImpl_SetSessionDesc` (stub). -/
def IDPLobbySPImpl_SetSessionDesc (h : Heap) (_iface : Ptr) (_ssd : Ptr) :
    HRESULT × Heap := (DP_OK, h)

/-- The C function `IDPLobbySPImpl_SetSPDataPointer` (stub). -/
def IDPLobbySPImpl_SetSPDataPointer (h : Heap) (_iface : Ptr) (_lpData : Ptr) :
    HRESULT × Heap := (DP_OK, h)

/-- The C function `IDPLobbySPImpl_StartSession` (stub). -/
def IDPLobbySPImpl_StartSession (h : Heap) (_iface : Ptr) (_ssc : Ptr) :
    HRESULT × Heap := (DP_OK, h)

/-- Signature of a domain operation: `(handle, payload) -> status`. -/
abbrev DomainOp := Heap → Ptr → Ptr → HRESULT × Heap

/-- Modelled from the spec: the type of the dispatch table (`IDPLobbySPVtbl`,
declared in `lobbysp.h`, which is not under `src/`), one field per slot in the
order of the initialiser of `dpLobbySPVT`. -/
structure IDPLobbySPVtbl where
  QueryInterface : Heap → Ptr → GUID → Except Fault (HRESULT × Ptr × Heap)
  AddRef : Heap → Ptr → Except Fault (Nat × Heap)
  Release : Heap → Ptr → Except Fault (Nat × Heap)
  AddGroupToGroup : DomainOp
  AddPlayerToGroup : DomainOp
  CreateGroup : DomainOp
  CreateGroupInGroup : DomainOp
  DeleteGroupFromGroup : DomainOp
  DeletePlayerFromGroup : DomainOp
  DestroyGroup : DomainOp
  EnumSessionsResponse : DomainOp
  GetSPDataPointer : DomainOp
  HandleMessage : DomainOp
  SendChatMessage : DomainOp
  SetGroupName : DomainOp
  SetPlayerName : DomainOp
  SetSessionDesc : DomainOp
  SetSPDataPointer : DomainOp
  StartSession : DomainOp

/-- The static table `dpLobbySPVT`. -/
def dpLobbySPVT : IDPLobbySPVtbl :=
  ⟨IDPLobbySPImpl_QueryInterface,
   IDPLobbySPImpl_AddRef,
   IDPLobbySPImpl_Release,
   IDPLobbySPImpl_AddGroupToGroup,
   IDPLobbySPImpl_AddPlayerToGroup,
   IDPLobbySPImpl_CreateGroup,
   IDPLobbySPImpl_CreateGroupInGroup,
   IDPLobbySPImpl_DeleteGroupFromGroup,
   IDPLobbySPImpl_DeletePlayerFromGroup,
   IDPLobbySPImpl_DestroyGroup,
   IDPLobbySPImpl_EnumSessionsResponse,
   IDPLobbySPImpl_GetSPDataPointer,
   IDPLobbySPImpl_HandleMessage,
   IDPLobbySPImpl_SendChatMessage,
   IDPLobbySPImpl_SetGroupName,
   IDPLobbySPImpl_SetPlayerName,
   IDPLobbySPImpl_SetSessionDesc,
   IDPLobbySPImpl_SetSPDataPointer,
   IDPLobbySPImpl_StartSession⟩


/-! ## Vocabulary of the properties -/

/-- A fully initialised handle: `p` is a live shell holding `o`, bound to the
lobby-SP table, whose two sub-resources are live blocks, the lock being
initialised. -/
structure FullyInitialised (h : Heap) (p : Ptr) (o : IDPLobbySPImpl) : Prop where
  nonnull : p ≠ NULL
  shell : find? h.cells p = some (Block.impl o)
  vtbl : o.lpVtbl = VtblPtr.dpLobbySPVT
  ref_range : -2147483648 ≤ o.ref ∧ o.ref ≤ 2147483647
  unk_nonnull : o.unk ≠ NULL
  unk_live : ∃ dbg, find? h.cells o.unk = some (Block.unk ⟨⟨some dbg⟩⟩)
  sp_nonnull : o.sp ≠ NULL
  sp_live : ∃ d, find? h.cells o.sp = some (Block.sp d)

/-- The service calls of one teardown of the handle `p` holding `o`. -/
def teardownEvents (p : Ptr) (o : IDPLobbySPImpl) : List Event :=
  [Event.free o.sp, Event.csDelete o.unk, Event.free o.unk, Event.free p]

/-- A reference-counting call made by a holder of the handle. -/
inductive RefOp where
  | add_ref
  | release
deriving DecidableEq

/-- Perform one reference-counting call on the handle `iface`. -/
def RefOp.call (h : Heap) (iface : Ptr) : RefOp → Except Fault (Nat × Heap)
  | RefOp.add_ref => IDPLobbySPImpl_AddRef h iface
  | RefOp.release => IDPLobbySPImpl_Release h iface

/-- Perform a sequence of reference-counting calls one after the other on the
handle `iface`; the result lists the value returned by each call. -/
def runOps (h : Heap) (iface : Ptr) : List RefOp → Except Fault (List Nat × Heap)
  | [] => Except.ok ([], h)
  | op :: rest =>
    match op.call h iface with
    | Except.ok r =>
      match runOps r.2 iface rest with
      | Except.ok t => Except.ok (r.1 :: t.1, t.2)
      | Except.error e => Except.error e
    | Except.error e => Except.error e

/-- The count the specification assigns to a handle that started at `r` after
the calls `ops`: `r + (#add_ref) - (#release)`. -/
def netFrom (r : Int) (ops : List RefOp) : Int :=
  r + (ops.count RefOp.add_ref : Int) - (ops.count RefOp.release : Int)

/-- The count the specification assigns to a freshly created handle after the
calls `ops`: `1 + (#add_ref) - (#release)`. -/
def netCount (ops : List RefOp) : Int := netFrom 1 ops

/-- A process memory with no live block whose allocator will grant the next
three requests at the addresses 5, 6 and 7. -/
def heap0 : Heap := ⟨[], [some 5, some 6, some 7], []⟩

/-- The shell written by a successful creation on `heap0`. -/
def shell1 : IDPLobbySPImpl := ⟨VtblPtr.dpLobbySPVT, 1, 6, 7⟩

/-- The memory left by a successful creation on `heap0` for the session 99. -/
def heapCreated : Heap :=
  { cells := [(7, Block.sp ⟨99⟩),
              (6, Block.unk ⟨⟨some ⟨some DPLSP_lock_name⟩⟩⟩),
              (5, Block.impl shell1)],
    plan := [],
    trace := [Event.alloc BlockKind.impl 5, Event.alloc BlockKind.unk 6, Event.csInit 6,
              Event.alloc BlockKind.sp 7] }

/-- The shell of a handle whose count is the largest value of `LONG`. -/
def shellMax : IDPLobbySPImpl := ⟨VtblPtr.dpLobbySPVT, 2147483647, 6, 7⟩

/-- A memory holding a fully initialised handle at address 5 whose count is
the largest value of `LONG`. -/
def heapMax : Heap :=
  { cells := [(7, Block.sp ⟨99⟩),
              (6, Block.unk ⟨⟨some ⟨some DPLSP_lock_name⟩⟩⟩),
              (5, Block.impl shellMax)],
    plan := [],
    trace := [] }

/-- A process memory with no live block whose allocator grants the shell at
address 5 and then reports out of memory. -/
def heapLockFail : Heap := ⟨[], [some 5, none], []⟩

/-- A process memory with no live block whose allocator grants the shell at
address 5, the lock block at address 6 and then reports out of memory. -/
def heapBindingFail : Heap := ⟨[], [some 5, some 6, none], []⟩

/-- The scenario of the specification after creation: `add_ref`, `release`,
`release`. -/
def scenarioOps : List RefOp := [RefOp.add_ref, RefOp.release, RefOp.release]

/-! ## Basic facts about memory -/

theorem find?_store (cs : List (Ptr × Block)) (p q : Ptr) (v : Block) :
    find? (store cs p v) q =
      if q = p then (if (find? cs p).isSome then some v else none) else find? cs q := by
  induction cs with
  | nil => simp [store, find?]
  | cons c rest ih =>
    obtain ⟨a, b⟩ := c
    by_cases hap : a = p
    · by_cases hqp : q = p
      · simp [store, find?, hap, hqp]
      · have hpq : ¬ p = q := fun e => hqp e.symm
        simp [store, find?, hap, hqp, hpq]
    · by_cases hqp : q = p
      · subst hqp
        simpa [store, find?, hap] using ih
      · by_cases haq : a = q
        · simp [store, find?, hap, hqp, haq]
        · simp [store, find?, hap, hqp, haq, ih]

theorem find?_remove (cs : List (Ptr × Block)) (p q : Ptr) :
    find? (remove cs p) q = if q = p then none else find? cs q := by
  induction cs with
  | nil => simp [remove, find?]
  | cons c rest ih =>
    obtain ⟨a, b⟩ := c
    by_cases hap : a = p
    · by_cases hqp : q = p
      · subst hqp
        simpa [remove, find?, hap] using ih
      · have hpq : ¬ p = q := fun e => hqp e.symm
        simp [remove, find?, hap, hqp, hpq, ih]
    · by_cases haq : a = q
      · have hqp : ¬ q = p := fun e => hap (haq.trans e)
        simp [remove, find?, hap, haq, hqp]
      · simp [remove, find?, hap, haq, ih]

theorem remove_of_fresh (cs : List (Ptr × Block)) (p : Ptr) (hf : find? cs p = none) :
    remove cs p = cs := by
  induction cs with
  | nil => simp [remove]
  | cons c rest ih =>
    obtain ⟨a, b⟩ := c
    by_cases hap : a = p
    · simp [find?, hap] at hf
    · simp [find?, hap] at hf
      simp [remove, hap, ih hf]

theorem remove_cons_self (cs : List (Ptr × Block)) (p : Ptr) (b : Block)
    (hf : find? cs p = none) : remove ((p, b) :: cs) p = cs := by
  simp [remove, remove_of_fresh cs p hf]

theorem remove_cons_ne (cs : List (Ptr × Block)) (p q : Ptr) (b : Block) (hne : q ≠ p) :
    remove ((q, b) :: cs) p = (q, b) :: remove cs p := by
  simp [remove, hne]

theorem create_success_path (h : Heap) (dp p1 p2 p3 : Ptr) (rest : List (Option Ptr))
    (hplan : h.plan = some p1 :: some p2 :: some p3 :: rest)
    (n1 : p1 ≠ NULL) (f1 : find? h.cells p1 = none)
    (n2 : p2 ≠ NULL) (f2 : find? h.cells p2 = none) (d21 : p2 ≠ p1)
    (n3 : p3 ≠ NULL) (f3 : find? h.cells p3 = none) (d31 : p3 ≠ p1) (d32 : p3 ≠ p2) :
    DPLSP_CreateInterface h IID_IDPLobbySP dp =
      Except.ok (S_OK, p1,
        { cells := (p3, Block.sp ⟨dp⟩) ::
                   (p2, Block.unk ⟨⟨some ⟨some DPLSP_lock_name⟩⟩⟩) ::
                   (p1, Block.impl ⟨VtblPtr.dpLobbySPVT, 1, p2, p3⟩) :: h.cells,
          plan := rest,
          trace := h.trace ++ [Event.alloc BlockKind.impl p1, Event.alloc BlockKind.unk p2,
                               Event.csInit p2, Event.alloc BlockKind.sp p3] }) := by
  simp [DPLSP_CreateInterface, HeapAlloc, hplan, n1, f1, IsEqualGUID, storeImpl, loadImpl, find?,
    store, zeroed, DPLSP_CreateIUnknown, bind, Except.bind, pure, Except.pure, n2, f2, d21, d21.symm,
    InitializeCriticalSection, storeUnk, loadUnk, storeSpare0, DPLSP_CreateDPLobbySP, n3, f3, d31, d32,
    d31.symm, d32.symm, storeSp, loadSp, IDPLobbySP_AddRef, IDPLobbySPImpl_AddRef, impl_from_IDPLobbySP,
    InterlockedIncrement, wrapLONG, toULONG]

theorem create_unsupported_path (h : Heap) (riid : GUID) (dp p : Ptr) (rest : List (Option Ptr))
    (hne : riid ≠ IID_IDPLobbySP) (hplan : h.plan = some p :: rest)
    (n1 : p ≠ NULL) (f1 : find? h.cells p = none) :
    DPLSP_CreateInterface h riid dp =
      Except.ok (E_NOINTERFACE, NULL,
        { cells := h.cells, plan := rest,
          trace := h.trace ++ [Event.alloc BlockKind.impl p, Event.free p] }) := by
  have hne2 : ¬ IID_IDPLobbySP = riid := fun e => hne e.symm
  simp [DPLSP_CreateInterface, HeapAlloc, hplan, n1, f1, IsEqualGUID, hne2, HeapFree, find?,
    bind, Except.bind, pure, Except.pure, remove_cons_self]

theorem create_ok_inv (h : Heap) (riid : GUID) (dp p : Ptr) (h' : Heap)
    (hok : DPLSP_CreateInterface h riid dp = Except.ok (S_OK, p, h')) :
    riid = IID_IDPLobbySP ∧ ∃ p2 p3 rest,
      h.plan = some p :: some p2 :: some p3 :: rest ∧
      p ≠ NULL ∧ find? h.cells p = none ∧
      p2 ≠ NULL ∧ find? h.cells p2 = none ∧ p2 ≠ p ∧
      p3 ≠ NULL ∧ find? h.cells p3 = none ∧ p3 ≠ p ∧ p3 ≠ p2 := by
  rcases hpl : h.plan with _ | ⟨_ | p1, r1⟩
  · simp [hpl, DPLSP_CreateInterface, HeapAlloc, IsEqualGUID, storeImpl, loadImpl, find?,
      store, zeroed, DPLSP_CreateIUnknown, bind, Except.bind, pure, Except.pure,
      InitializeCriticalSection, storeUnk, loadUnk, storeSpare0, DPLSP_CreateDPLobbySP,
      DPLSP_DestroyDPLobbySP, DPLSP_DestroyIUnknown, DeleteCriticalSection, HeapFree,
      DPERR_OUTOFMEMORY, DPERR_NOMEMORY, E_NOINTERFACE, S_OK] at hok
  · simp [hpl, DPLSP_CreateInterface, HeapAlloc, IsEqualGUID, storeImpl, loadImpl, find?,
      store, zeroed, DPLSP_CreateIUnknown, bind, Except.bind, pure, Except.pure,
      InitializeCriticalSection, storeUnk, loadUnk, storeSpare0, DPLSP_CreateDPLobbySP,
      DPLSP_DestroyDPLobbySP, DPLSP_DestroyIUnknown, DeleteCriticalSection, HeapFree,
      DPERR_OUTOFMEMORY, DPERR_NOMEMORY, E_NOINTERFACE, S_OK] at hok
  by_cases n1 : p1 = NULL
  · simp [hpl, n1, DPLSP_CreateInterface, HeapAlloc, IsEqualGUID, storeImpl, loadImpl, find?,
      store, zeroed, DPLSP_CreateIUnknown, bind, Except.bind, pure, Except.pure,
      InitializeCriticalSection, storeUnk, loadUnk, storeSpare0, DPLSP_CreateDPLobbySP,
      DPLSP_DestroyDPLobbySP, DPLSP_DestroyIUnknown, DeleteCriticalSection, HeapFree,
      DPERR_OUTOFMEMORY, DPERR_NOMEMORY, E_NOINTERFACE, S_OK] at hok
  rcases f1 : find? h.cells p1 with _ | b1
  swap
  · simp [hpl, n1, f1, DPLSP_CreateInterface, HeapAlloc, IsEqualGUID, storeImpl, loadImpl, find?,
      store, zeroed, DPLSP_CreateIUnknown, bind, Except.bind, pure, Except.pure,
      InitializeCriticalSection, storeUnk, loadUnk, storeSpare0, DPLSP_CreateDPLobbySP,
      DPLSP_DestroyDPLobbySP, DPLSP_DestroyIUnknown, DeleteCriticalSection, HeapFree,
      DPERR_OUTOFMEMORY, DPERR_NOMEMORY, E_NOINTERFACE, S_OK] at hok
  by_cases hr : riid = IID_IDPLobbySP
  swap
  · rw [create_unsupported_path h riid dp p1 r1 hr hpl n1 f1] at hok
    simp [E_NOINTERFACE, S_OK] at hok
  subst hr
  rcases r1 with _ | ⟨_ | p2, r2⟩
  · simp [hpl, n1, f1, DPLSP_CreateInterface, HeapAlloc, IsEqualGUID, storeImpl, loadImpl, find?,
      store, zeroed, DPLSP_CreateIUnknown, bind, Except.bind, pure, Except.pure,
      InitializeCriticalSection, storeUnk, loadUnk, storeSpare0, DPLSP_CreateDPLobbySP,
      DPLSP_DestroyDPLobbySP, DPLSP_DestroyIUnknown, DeleteCriticalSection, HeapFree,
      DPERR_OUTOFMEMORY, DPERR_NOMEMORY, E_NOINTERFACE, S_OK] at hok
  · simp [hpl, n1, f1, DPLSP_CreateInterface, HeapAlloc, IsEqualGUID, storeImpl, loadImpl, find?,
      store, zeroed, DPLSP_CreateIUnknown, bind, Except.bind, pure, Except.pure,
      InitializeCriticalSection, storeUnk, loadUnk, storeSpare0, DPLSP_CreateDPLobbySP,
      DPLSP_DestroyDPLobbySP, DPLSP_DestroyIUnknown, DeleteCriticalSection, HeapFree,
      DPERR_OUTOFMEMORY, DPERR_NOMEMORY, E_NOINTERFACE, S_OK] at hok
  by_cases n2 : p2 = NULL
  · simp [hpl, n1, f1, n2, DPLSP_CreateInterface, HeapAlloc, IsEqualGUID, storeImpl, loadImpl, find?,
      store, zeroed, DPLSP_CreateIUnknown, bind, Except.bind, pure, Except.pure,
      InitializeCriticalSection, storeUnk, loadUnk, storeSpare0, DPLSP_CreateDPLobbySP,
      DPLSP_DestroyDPLobbySP, DPLSP_DestroyIUnknown, DeleteCriticalSection, HeapFree,
      DPERR_OUTOFMEMORY, DPERR_NOMEMORY, E_NOINTERFACE, S_OK] at hok
  by_cases d21 : p1 = p2
  · subst d21
    simp [hpl, n1, f1, DPLSP_CreateInterface, HeapAlloc, IsEqualGUID, storeImpl, loadImpl, find?,
      store, zeroed, DPLSP_CreateIUnknown, bind, Except.bind, pure, Except.pure,
      InitializeCriticalSection, storeUnk, loadUnk, storeSpare0, DPLSP_CreateDPLobbySP,
      DPLSP_DestroyDPLobbySP, DPLSP_DestroyIUnknown, DeleteCriticalSection, HeapFree,
      DPERR_OUTOFMEMORY, DPERR_NOMEMORY, E_NOINTERFACE, S_OK] at hok
  have d21b : ¬ p2 = p1 := fun e => d21 e.symm
  rcases f2 : find? h.cells p2 with _ | b2
  swap
  · simp [hpl, n1, f1, n2, d21, d21b, f2, DPLSP_CreateInterface, HeapAlloc, IsEqualGUID, storeImpl, loadImpl, find?,
      store, zeroed, DPLSP_CreateIUnknown, bind, Except.bind, pure, Except.pure,
      InitializeCriticalSection, storeUnk, loadUnk, storeSpare0, DPLSP_CreateDPLobbySP,
      DPLSP_DestroyDPLobbySP, DPLSP_DestroyIUnknown, DeleteCriticalSection, HeapFree,
      DPERR_OUTOFMEMORY, DPERR_NOMEMORY, E_NOINTERFACE, S_OK] at hok
  rcases r2 with _ | ⟨_ | p3, r3⟩
  · simp [hpl, n1, f1, n2, d21, d21b, f2, remove_cons_self, remove_cons_ne, DPLSP_CreateInterface, HeapAlloc, IsEqualGUID, storeImpl, loadImpl, find?,
      store, zeroed, DPLSP_CreateIUnknown, bind, Except.bind, pure, Except.pure,
      InitializeCriticalSection, storeUnk, loadUnk, storeSpare0, DPLSP_CreateDPLobbySP,
      DPLSP_DestroyDPLobbySP, DPLSP_DestroyIUnknown, DeleteCriticalSection, HeapFree,
      DPERR_OUTOFMEMORY, DPERR_NOMEMORY, E_NOINTERFACE, S_OK] at hok
  · simp [hpl, n1, f1, n2, d21, d21b, f2, remove_cons_self, remove_cons_ne, DPLSP_CreateInterface, HeapAlloc, IsEqualGUID, storeImpl, loadImpl, find?,
      store, zeroed, DPLSP_CreateIUnknown, bind, Except.bind, pure, Except.pure,
      InitializeCriticalSection, storeUnk, loadUnk, storeSpare0, DPLSP_CreateDPLobbySP,
      DPLSP_DestroyDPLobbySP, DPLSP_DestroyIUnknown, DeleteCriticalSection, HeapFree,
      DPERR_OUTOFMEMORY, DPERR_NOMEMORY, E_NOINTERFACE, S_OK] at hok
  by_cases n3 : p3 = NULL
  · simp [hpl, n1, f1, n2, d21, d21b, f2, n3, remove_cons_self, remove_cons_ne, DPLSP_CreateInterface, HeapAlloc, IsEqualGUID, storeImpl, loadImpl, find?,
      store, zeroed, DPLSP_CreateIUnknown, bind, Except.bind, pure, Except.pure,
      InitializeCriticalSection, storeUnk, loadUnk, storeSpare0, DPLSP_CreateDPLobbySP,
      DPLSP_DestroyDPLobbySP, DPLSP_DestroyIUnknown, DeleteCriticalSection, HeapFree,
      DPERR_OUTOFMEMORY, DPERR_NOMEMORY, E_NOINTERFACE, S_OK] at hok
  by_cases d32 : p2 = p3
  · subst d32
    simp [hpl, n1, f1, n2, d21, d21b, f2, remove_cons_self, remove_cons_ne, DPLSP_CreateInterface, HeapAlloc, IsEqualGUID, storeImpl, loadImpl, find?,
      store, zeroed, DPLSP_CreateIUnknown, bind, Except.bind, pure, Except.pure,
      InitializeCriticalSection, storeUnk, loadUnk, storeSpare0, DPLSP_CreateDPLobbySP,
      DPLSP_DestroyDPLobbySP, DPLSP_DestroyIUnknown, DeleteCriticalSection, HeapFree,
      DPERR_OUTOFMEMORY, DPERR_NOMEMORY, E_NOINTERFACE, S_OK] at hok
  by_cases d31 : p1 = p3
  · subst d31
    simp [hpl, n1, f1, n2, d21, d21b, f2, d32, remove_cons_self, remove_cons_ne,
      DPLSP_CreateInterface, HeapAlloc, IsEqualGUID, storeImpl, loadImpl, find?,
      store, zeroed, DPLSP_CreateIUnknown, bind, Except.bind, pure, Except.pure,
      InitializeCriticalSection, storeUnk, loadUnk, storeSpare0, DPLSP_CreateDPLobbySP,
      DPLSP_DestroyDPLobbySP, DPLSP_DestroyIUnknown, DeleteCriticalSection, HeapFree,
      DPERR_OUTOFMEMORY, DPERR_NOMEMORY, E_NOINTERFACE, S_OK] at hok
  rcases f3 : find? h.cells p3 with _ | b3
  swap
  · simp [hpl, n1, f1, n2, d21, d21b, f2, n3, d32, d31, f3, remove_cons_self, remove_cons_ne,
      DPLSP_CreateInterface, HeapAlloc, IsEqualGUID, storeImpl, loadImpl, find?,
      store, zeroed, DPLSP_CreateIUnknown, bind, Except.bind, pure, Except.pure,
      InitializeCriticalSection, storeUnk, loadUnk, storeSpare0, DPLSP_CreateDPLobbySP,
      DPLSP_DestroyDPLobbySP, DPLSP_DestroyIUnknown, DeleteCriticalSection, HeapFree,
      DPERR_OUTOFMEMORY, DPERR_NOMEMORY, E_NOINTERFACE, S_OK] at hok
  have d31b : p3 ≠ p1 := fun e => d31 e.symm
  have d32b : p3 ≠ p2 := fun e => d32 e.symm
  rw [create_success_path h dp p1 p2 p3 r3 hpl n1 f1 n2 f2 d21b n3 f3 d31b d32b] at hok
  simp only [Except.ok.injEq, Prod.mk.injEq] at hok
  obtain ⟨-, hp, -⟩ := hok
  subst hp
  exact ⟨rfl, p2, p3, r3, rfl, n1, f1, n2, f2, d21b, n3, f3, d31b, d32b⟩

theorem wrapLONG_of_range (x : Int) (h1 : -2147483648 ≤ x) (h2 : x ≤ 2147483647) :
    wrapLONG x = x := by
  unfold wrapLONG
  omega

theorem toULONG_of_nonneg (x : Int) (h1 : 0 ≤ x) (h2 : x ≤ 4294967295) :
    toULONG x = x.toNat := by
  unfold toULONG
  congr 1
  omega

theorem FullyInitialised.unk_ne (h : Heap) (p : Ptr) (o : IDPLobbySPImpl)
    (hv : FullyInitialised h p o) : o.unk ≠ p := by
  intro e
  obtain ⟨dbg, hu⟩ := hv.unk_live
  rw [e, hv.shell] at hu
  cases hu

theorem FullyInitialised.sp_ne (h : Heap) (p : Ptr) (o : IDPLobbySPImpl)
    (hv : FullyInitialised h p o) : o.sp ≠ p := by
  intro e
  obtain ⟨d, hs⟩ := hv.sp_live
  rw [e, hv.shell] at hs
  cases hs

theorem FullyInitialised.sp_ne_unk (h : Heap) (p : Ptr) (o : IDPLobbySPImpl)
    (hv : FullyInitialised h p o) : o.sp ≠ o.unk := by
  intro e
  obtain ⟨d, hs⟩ := hv.sp_live
  obtain ⟨dbg, hu⟩ := hv.unk_live
  rw [e, hu] at hs
  cases hs

theorem release_keep (h : Heap) (p : Ptr) (o : IDPLobbySPImpl)
    (hv : FullyInitialised h p o) (hn : 2 ≤ o.ref) :
    IDPLobbySPImpl_Release h p =
      Except.ok ((o.ref - 1).toNat,
        { h with cells := store h.cells p (Block.impl { o with ref := o.ref - 1 }) }) := by
  have hr := hv.ref_range
  have hw : wrapLONG (o.ref - 1) = o.ref - 1 := wrapLONG_of_range _ (by omega) (by omega)
  have hu : toULONG (o.ref - 1) = (o.ref - 1).toNat := toULONG_of_nonneg _ (by omega) (by omega)
  have hnz : ¬ (o.ref - 1).toNat = 0 := by omega
  simp [IDPLobbySPImpl_Release, impl_from_IDPLobbySP, InterlockedDecrement, loadImpl, storeImpl,
    hv.nonnull, hv.shell, hw, hu, hnz, bind, Except.bind, pure, Except.pure]
  intro h0
  omega

theorem release_last (h : Heap) (p : Ptr) (o : IDPLobbySPImpl)
    (hv : FullyInitialised h p o) (hn : o.ref = 1) :
    ∃ h', IDPLobbySPImpl_Release h p = Except.ok (0, h') ∧
      h'.trace = h.trace ++ teardownEvents p o ∧ h'.plan = h.plan ∧
      find? h'.cells o.sp = none ∧ find? h'.cells o.unk = none ∧ find? h'.cells p = none ∧
      ∀ q, q ≠ p → q ≠ o.unk → q ≠ o.sp → find? h'.cells q = find? h.cells q := by
  obtain ⟨dbg, hu⟩ := hv.unk_live
  obtain ⟨d, hs⟩ := hv.sp_live
  have e1 := hv.unk_ne
  have e2 := hv.sp_ne
  have e3 := hv.sp_ne_unk
  have e3b : o.unk ≠ o.sp := fun e => e3 e.symm
  have e1b : p ≠ o.unk := fun e => e1 e.symm
  have e2b : p ≠ o.sp := fun e => e2 e.symm
  simp [IDPLobbySPImpl_Release, impl_from_IDPLobbySP, InterlockedDecrement, loadImpl, storeImpl,
    hv.nonnull, hv.shell, hn, wrapLONG, toULONG, bind, Except.bind, pure, Except.pure,
    DPLSP_DestroyDPLobbySP, DPLSP_DestroyIUnknown, HeapFree, storeSpare0, DeleteCriticalSection,
    loadUnk, storeUnk, find?_store, find?_remove, hv.unk_nonnull, hv.sp_nonnull, hu, hs,
    e1, e2, e3, e3b, e1b, e2b, teardownEvents]
  intro q hq1 hq2 hq3
  simp [hq1, hq2, hq3]

theorem FullyInitialised.set_ref (h : Heap) (p : Ptr) (o : IDPLobbySPImpl)
    (hv : FullyInitialised h p o) (r : Int) (h1 : -2147483648 ≤ r) (h2 : r ≤ 2147483647) :
    FullyInitialised { h with cells := store h.cells p (Block.impl { o with ref := r }) } p
      { o with ref := r } := by
  obtain ⟨dbg, hu⟩ := hv.unk_live
  obtain ⟨d, hs⟩ := hv.sp_live
  refine ⟨hv.nonnull, ?_, hv.vtbl, ⟨h1, h2⟩, hv.unk_nonnull, ⟨dbg, ?_⟩, hv.sp_nonnull, ⟨d, ?_⟩⟩
  · simp [find?_store, hv.shell]
  · simp [find?_store, hv.unk_ne, hu]
  · simp [find?_store, hv.sp_ne, hs]

theorem wrapLONG_range (x : Int) : -2147483648 ≤ wrapLONG x ∧ wrapLONG x ≤ 2147483647 := by
  unfold wrapLONG
  omega

theorem addref_step (h : Heap) (p : Ptr) (o : IDPLobbySPImpl) (hv : FullyInitialised h p o) :
    IDPLobbySPImpl_AddRef h p =
      Except.ok (toULONG (wrapLONG (o.ref + 1)),
        { h with cells := store h.cells p (Block.impl { o with ref := wrapLONG (o.ref + 1) }) }) := by
  simp [IDPLobbySPImpl_AddRef, impl_from_IDPLobbySP, InterlockedIncrement, loadImpl, storeImpl,
    hv.nonnull, hv.shell, bind, Except.bind, pure, Except.pure]

theorem query_recognised (h : Heap) (p : Ptr) (o : IDPLobbySPImpl) (riid : GUID)
    (hv : FullyInitialised h p o) (hr : riid = IID_IUnknown ∨ riid = IID_IDPLobbySP) :
    IDPLobbySPImpl_QueryInterface h p riid =
      Except.ok (S_OK, p,
        { h with cells := store h.cells p (Block.impl { o with ref := wrapLONG (o.ref + 1) }) }) := by
  have hc : (IsEqualGUID IID_IUnknown riid || IsEqualGUID IID_IDPLobbySP riid) = true := by
    rcases hr with e | e <;> subst e <;> decide
  simp [IDPLobbySPImpl_QueryInterface, hc, IDPLobbySP_AddRef, loadImpl, hv.nonnull, hv.shell,
    hv.vtbl, addref_step h p o hv, bind, Except.bind, pure, Except.pure]

theorem query_unrecognised (h : Heap) (p : Ptr) (riid : GUID)
    (h1 : riid ≠ IID_IUnknown) (h2 : riid ≠ IID_IDPLobbySP) :
    IDPLobbySPImpl_QueryInterface h p riid = Except.ok (E_NOINTERFACE, NULL, h) := by
  have e1 : ¬ IID_IUnknown = riid := fun e => h1 e.symm
  have e2 : ¬ IID_IDPLobbySP = riid := fun e => h2 e.symm
  simp [IDPLobbySPImpl_QueryInterface, IsEqualGUID, e1, e2, pure, Except.pure]

theorem netFrom_nil (r : Int) : netFrom r [] = r := by
  simp [netFrom]

theorem netFrom_cons_add (r : Int) (ops : List RefOp) :
    netFrom r (RefOp.add_ref :: ops) = netFrom (r + 1) ops := by
  simp [netFrom, List.count_cons]
  omega

theorem netFrom_cons_release (r : Int) (ops : List RefOp) :
    netFrom r (RefOp.release :: ops) = netFrom (r - 1) ops := by
  simp [netFrom, List.count_cons]
  omega

theorem set_ref_self (o : IDPLobbySPImpl) : { o with ref := o.ref } = o := by
  cases o
  rfl

theorem runOps_core (p : Ptr) : ∀ (ops : List RefOp) (h : Heap) (o : IDPLobbySPImpl),
    FullyInitialised h p o → 0 < o.ref →
    (∀ k, k < ops.length → 0 < netFrom o.ref (ops.take k)) →
    (∀ k, k ≤ ops.length → netFrom o.ref (ops.take k) ≤ 2147483647) →
    ∃ hfin, runOps h p ops =
        Except.ok ((List.range ops.length).map
          (fun i => (netFrom o.ref (ops.take (i + 1))).toNat), hfin) ∧
      hfin.plan = h.plan ∧
      (0 < netFrom o.ref ops →
        hfin.trace = h.trace ∧ FullyInitialised hfin p { o with ref := netFrom o.ref ops }) ∧
      (netFrom o.ref ops = 0 →
        hfin.trace = h.trace ++ teardownEvents p o ∧ find? hfin.cells p = none ∧
        find? hfin.cells o.unk = none ∧ find? hfin.cells o.sp = none) := by
  intro ops
  induction ops with
  | nil =>
    intro h o hv hpos _ _
    refine ⟨h, by simp [runOps], rfl, ?_, ?_⟩
    · intro _
      rw [netFrom_nil, set_ref_self]
      exact ⟨rfl, hv⟩
    · intro h0
      rw [netFrom_nil] at h0
      omega
  | cons op rest ih =>
    intro h o hv hpos hlive hmax
    have hr := hv.ref_range
    cases op with
    | add_ref =>
      have hb := hmax 1 (by simp)
      simp [netFrom_cons_add, netFrom_nil] at hb
      have hw : wrapLONG (o.ref + 1) = o.ref + 1 := wrapLONG_of_range _ (by omega) (by omega)
      have hu : toULONG (o.ref + 1) = (o.ref + 1).toNat :=
        toULONG_of_nonneg _ (by omega) (by omega)
      have hv1 := hv.set_ref h p o (o.ref + 1) (by omega) (by omega)
      have hlive1 : ∀ k, k < rest.length →
          0 < netFrom (o.ref + 1) (rest.take k) := by
        intro k hk
        have := hlive (k + 1) (by simp; omega)
        simpa [netFrom_cons_add] using this
      have hmax1 : ∀ k, k ≤ rest.length →
          netFrom (o.ref + 1) (rest.take k) ≤ 2147483647 := by
        intro k hk
        have := hmax (k + 1) (by simp; omega)
        simpa [netFrom_cons_add] using this
      obtain ⟨hfin, hrun, hplan, hA, hB⟩ := ih _ _ hv1 (by simp; omega) hlive1 hmax1
      refine ⟨hfin, ?_, ?_, ?_, ?_⟩
      · simp [runOps, RefOp.call, addref_step h p o hv, hw, hu, hrun, List.range_succ_eq_map,
          netFrom_cons_add, netFrom_nil, Function.comp_def]
      · simpa using hplan
      · intro hp
        rw [netFrom_cons_add] at hp ⊢
        simpa using hA hp
      · intro hz
        rw [netFrom_cons_add] at hz
        simpa [teardownEvents] using hB hz
    | release =>
      by_cases h2 : 2 ≤ o.ref
      · have hw : (o.ref - 1).toNat = (o.ref - 1).toNat := rfl
        have hv1 := hv.set_ref h p o (o.ref - 1) (by omega) (by omega)
        have hlive1 : ∀ k, k < rest.length →
            0 < netFrom (o.ref - 1) (rest.take k) := by
          intro k hk
          have := hlive (k + 1) (by simp; omega)
          simpa [netFrom_cons_release] using this
        have hmax1 : ∀ k, k ≤ rest.length →
            netFrom (o.ref - 1) (rest.take k) ≤ 2147483647 := by
          intro k hk
          have := hmax (k + 1) (by simp; omega)
          simpa [netFrom_cons_release] using this
        obtain ⟨hfin, hrun, hplan, hA, hB⟩ := ih _ _ hv1 (by simp; omega) hlive1 hmax1
        refine ⟨hfin, ?_, ?_, ?_, ?_⟩
        · simp [runOps, RefOp.call, release_keep h p o hv h2, hrun, List.range_succ_eq_map,
            netFrom_cons_release, netFrom_nil, Function.comp_def]
        · simpa using hplan
        · intro hp
          rw [netFrom_cons_release] at hp ⊢
          simpa using hA hp
        · intro hz
          rw [netFrom_cons_release] at hz
          simpa [teardownEvents] using hB hz
      · have h1 : o.ref = 1 := by omega
        have hnil : rest = [] := by
          cases rest with
          | nil => rfl
          | cons a t =>
            have := hlive 1 (by simp)
            simp [netFrom_cons_release, netFrom_nil, h1] at this
        subst hnil
        obtain ⟨hfin, hrun, htrace, hplan, hs, hu, hp, -⟩ := release_last h p o hv h1
        refine ⟨hfin, ?_, hplan, ?_, ?_⟩
        · simp [runOps, RefOp.call, hrun, netFrom_cons_release, netFrom_nil, h1]
        · intro hpos2
          simp [netFrom_cons_release, netFrom_nil, h1] at hpos2
        · intro _
          exact ⟨htrace, hp, hu, hs⟩

theorem create_ok_valid (h : Heap) (riid : GUID) (dp p : Ptr) (h' : Heap)
    (hok : DPLSP_CreateInterface h riid dp = Except.ok (S_OK, p, h')) :
    ∃ u s, FullyInitialised h' p ⟨VtblPtr.dpLobbySPVT, 1, u, s⟩ ∧
      find? h'.cells u = some (Block.unk ⟨⟨some ⟨some DPLSP_lock_name⟩⟩⟩) ∧
      find? h'.cells s = some (Block.sp ⟨dp⟩) := by
  obtain ⟨hr, p2, p3, rest, hpl, n1, f1, n2, f2, d21, n3, f3, d31, d32⟩ :=
    create_ok_inv h riid dp p h' hok
  subst hr
  rw [create_success_path h dp p p2 p3 rest hpl n1 f1 n2 f2 d21 n3 f3 d31 d32] at hok
  simp only [Except.ok.injEq, Prod.mk.injEq, true_and] at hok
  subst hok
  have e21 : ¬ p3 = p2 := d32
  have e31 : ¬ p3 = p := d31
  have e2 : ¬ p2 = p := d21
  refine ⟨p2, p3, ⟨n1, ?_, rfl, ⟨by simp, by simp⟩, n2, ⟨⟨some DPLSP_lock_name⟩, ?_⟩, n3,
    ⟨⟨dp⟩, ?_⟩⟩, ?_, ?_⟩ <;>
    simp [find?, e21, e31, e2]

theorem heapCreated_valid : FullyInitialised heapCreated 5 shell1 :=
  ⟨by decide, rfl, rfl, by decide, by decide, ⟨_, rfl⟩, by decide, ⟨_, rfl⟩⟩

theorem heapMax_valid : FullyInitialised heapMax 5 shellMax :=
  ⟨by decide, rfl, rfl, by decide, by decide, ⟨_, rfl⟩, by decide, ⟨_, rfl⟩⟩

theorem wrapLONG_add_wrapLONG (x y : Int) : wrapLONG (wrapLONG x + y) = wrapLONG (x + y) := by
  unfold wrapLONG
  omega

theorem runOps_add_refs (p : Ptr) : ∀ (n : Nat) (h : Heap) (o : IDPLobbySPImpl),
    FullyInitialised h p o →
    ∃ hfin, runOps h p (List.replicate n RefOp.add_ref) =
        Except.ok ((List.range n).map (fun (i : Nat) => toULONG (wrapLONG (o.ref + ((i : Int) + 1)))),
          hfin) ∧
      find? hfin.cells p = some (Block.impl { o with ref := wrapLONG (o.ref + n) }) ∧
      hfin.trace = h.trace := by
  intro n
  induction n with
  | zero =>
    intro h o hv
    refine ⟨h, by simp [runOps], ?_, rfl⟩
    have hr := hv.ref_range
    simp [wrapLONG_of_range o.ref hr.1 hr.2, set_ref_self, hv.shell]
  | succ n ih =>
    intro h o hv
    have hwr := wrapLONG_range (o.ref + 1)
    have hv1 := hv.set_ref h p o (wrapLONG (o.ref + 1)) hwr.1 hwr.2
    obtain ⟨hfin, hrun, hfind, htrace⟩ := ih _ _ hv1
    refine ⟨hfin, ?_, ?_, ?_⟩
    · simp [List.replicate_succ, runOps, RefOp.call, addref_step h p o hv, hrun,
        List.range_succ_eq_map, Function.comp_def, wrapLONG_add_wrapLONG]
      intro a _
      congr 2
      omega
    · rw [hfind]
      simp only [wrapLONG_add_wrapLONG]
      have e : o.ref + 1 + (n : Int) = o.ref + ((n + 1 : Nat) : Int) := by
        push_cast
        omega
      rw [e]
    · simpa using htrace

theorem getLast?_map_range_succ (f : Nat → Nat) (n : Nat) :
    ((List.range (n + 1)).map f).getLast? = some (f n) := by
  simp [List.range_succ]

theorem netCount_replicate_add (n : Nat) :
    netCount (List.replicate n RefOp.add_ref) = 1 + (n : Int) := by
  simp [netCount, netFrom, List.count_replicate]

/-! ## The claims -/

/-- C1: every call of `DPLSP_CreateInterface` that returns `S_OK` hands back a
non-null handle whose shell is bound to the lobby-SP table, has `ref` exactly
1, and points to two live blocks: the lock block with its critical section
initialised, and the session-binding block storing exactly the `dp` that was
passed in. -/
theorem create_ok_handle_state (h : Heap) (riid : GUID) (dp p : Ptr) (h' : Heap)
    (hok : DPLSP_CreateInterface h riid dp = Except.ok (S_OK, p, h')) :
    p ≠ NULL ∧ ∃ u s,
      find? h'.cells p = some (Block.impl ⟨VtblPtr.dpLobbySPVT, 1, u, s⟩) ∧
      u ≠ NULL ∧
      find? h'.cells u = some (Block.unk ⟨⟨some ⟨some DPLSP_lock_name⟩⟩⟩) ∧
      s ≠ NULL ∧
      find? h'.cells s = some (Block.sp ⟨dp⟩) := by
  obtain ⟨u, s, hv, hu, hs⟩ := create_ok_valid h riid dp p h' hok
  exact ⟨hv.nonnull, u, s, hv.shell, hv.unk_nonnull, hu, hv.sp_nonnull, hs⟩

/-- C1 at a concrete input: creation on `heap0` for the session 99 returns
`S_OK`, and the theorem applies to that call. -/
theorem create_ok_handle_state_witness :
    DPLSP_CreateInterface heap0 IID_IDPLobbySP 99 = Except.ok (S_OK, 5, heapCreated) ∧
    ((5 : Ptr) ≠ NULL ∧ ∃ u s,
      find? heapCreated.cells 5 = some (Block.impl ⟨VtblPtr.dpLobbySPVT, 1, u, s⟩) ∧
      u ≠ NULL ∧
      find? heapCreated.cells u = some (Block.unk ⟨⟨some ⟨some DPLSP_lock_name⟩⟩⟩) ∧
      s ≠ NULL ∧
      find? heapCreated.cells s = some (Block.sp ⟨99⟩)) :=
  ⟨rfl, create_ok_handle_state heap0 IID_IDPLobbySP 99 5 heapCreated rfl⟩

/-- C2 (the code departs from the claim): when the shell allocation succeeds
and the allocation of the lock block fails, `DPLSP_CreateInterface` does not
return `DPERR_NOMEMORY`: its rollback calls `DPLSP_DestroyIUnknown`, which
writes through the null `This->unk`, so the call ends in a null-pointer
access. -/
theorem create_lock_alloc_failure_faults (h : Heap) (dp p : Ptr) (rest : List (Option Ptr))
    (hplan : h.plan = some p :: none :: rest)
    (n1 : p ≠ NULL) (f1 : find? h.cells p = none) :
    DPLSP_CreateInterface h IID_IDPLobbySP dp = Except.error Fault.nullDeref := by
  simp [DPLSP_CreateInterface, HeapAlloc, hplan, n1, f1, IsEqualGUID, storeImpl, loadImpl, find?,
    store, zeroed, DPLSP_CreateIUnknown, DPLSP_DestroyDPLobbySP, DPLSP_DestroyIUnknown, HeapFree,
    storeSpare0, loadUnk, bind, Except.bind, pure, Except.pure]

/-- C2 at a concrete input: the allocator grants the shell at address 5 and
then reports out of memory. -/
theorem create_lock_alloc_failure_faults_witness :
    heapLockFail.plan = some 5 :: none :: [] ∧ (5 : Ptr) ≠ NULL ∧
    find? heapLockFail.cells 5 = none ∧
    DPLSP_CreateInterface heapLockFail IID_IDPLobbySP 99 = Except.error Fault.nullDeref :=
  ⟨rfl, by decide, rfl,
    create_lock_alloc_failure_faults heapLockFail 99 5 [] rfl (by decide) rfl⟩

/-- C3: for every identifier other than `IID_IDPLobbySP`, when the shell
allocation succeeds, `DPLSP_CreateInterface` returns `E_NOINTERFACE` with a
null `*ppvObj`; the live blocks afterwards are exactly those before, and the
only allocation ever made is the shell, which is freed again. -/
theorem create_unsupported_no_leak (h : Heap) (riid : GUID) (dp p : Ptr)
    (rest : List (Option Ptr))
    (hne : riid ≠ IID_IDPLobbySP) (hplan : h.plan = some p :: rest)
    (n1 : p ≠ NULL) (f1 : find? h.cells p = none) :
    DPLSP_CreateInterface h riid dp =
      Except.ok (E_NOINTERFACE, NULL,
        { cells := h.cells, plan := rest,
          trace := h.trace ++ [Event.alloc BlockKind.impl p, Event.free p] }) :=
  create_unsupported_path h riid dp p rest hne hplan n1 f1

/-- C3 at a concrete input: the base identifier `IID_IUnknown` on `heap0`. -/
theorem create_unsupported_no_leak_witness :
    IID_IUnknown ≠ IID_IDPLobbySP ∧ heap0.plan = some 5 :: [some 6, some 7] ∧
    (5 : Ptr) ≠ NULL ∧ find? heap0.cells 5 = none ∧
    DPLSP_CreateInterface heap0 IID_IUnknown 99 =
      Except.ok (E_NOINTERFACE, NULL,
        { cells := heap0.cells, plan := [some 6, some 7],
          trace := heap0.trace ++ [Event.alloc BlockKind.impl 5, Event.free 5] }) :=
  ⟨by decide, rfl, by decide, rfl,
    create_unsupported_no_leak heap0 IID_IUnknown 99 5 [some 6, some 7] (by decide) rfl
      (by decide) rfl⟩

/-- C4: with the supported identifier, when the shell and the lock block are
allocated and the allocation of the session-binding block fails,
`DPLSP_CreateInterface` returns `DPERR_NOMEMORY` with a null `*ppvObj`; the
rollback deletes the critical section, frees the lock block and then frees
the shell, and the live blocks afterwards are exactly those before. -/
theorem create_binding_alloc_failure_rolls_back (h : Heap) (dp p1 p2 : Ptr)
    (rest : List (Option Ptr))
    (hplan : h.plan = some p1 :: some p2 :: none :: rest)
    (n1 : p1 ≠ NULL) (f1 : find? h.cells p1 = none)
    (n2 : p2 ≠ NULL) (f2 : find? h.cells p2 = none) (d21 : p2 ≠ p1) :
    DPLSP_CreateInterface h IID_IDPLobbySP dp =
      Except.ok (DPERR_NOMEMORY, NULL,
        { cells := h.cells, plan := rest,
          trace := h.trace ++ [Event.alloc BlockKind.impl p1, Event.alloc BlockKind.unk p2,
                               Event.csInit p2, Event.csDelete p2, Event.free p2,
                               Event.free p1] }) := by
  simp [DPLSP_CreateInterface, HeapAlloc, hplan, n1, f1, IsEqualGUID, storeImpl, loadImpl, find?,
    store, zeroed, DPLSP_CreateIUnknown, bind, Except.bind, pure, Except.pure, n2, f2, d21, d21.symm,
    InitializeCriticalSection, storeUnk, loadUnk, storeSpare0, DPLSP_CreateDPLobbySP,
    DPLSP_DestroyDPLobbySP, DPLSP_DestroyIUnknown, DeleteCriticalSection, HeapFree,
    remove_cons_self, remove_cons_ne]

/-- C4 at a concrete input: the allocator grants addresses 5 and 6 and then
reports out of memory. -/
theorem create_binding_alloc_failure_rolls_back_witness :
    heapBindingFail.plan = some 5 :: some 6 :: none :: [] ∧
    (5 : Ptr) ≠ NULL ∧ find? heapBindingFail.cells 5 = none ∧
    (6 : Ptr) ≠ NULL ∧ find? heapBindingFail.cells 6 = none ∧ (6 : Ptr) ≠ 5 ∧
    DPLSP_CreateInterface heapBindingFail IID_IDPLobbySP 99 =
      Except.ok (DPERR_NOMEMORY, NULL,
        { cells := heapBindingFail.cells, plan := [],
          trace := heapBindingFail.trace ++
            [Event.alloc BlockKind.impl 5, Event.alloc BlockKind.unk 6, Event.csInit 6,
             Event.csDelete 6, Event.free 6, Event.free 5] }) :=
  ⟨rfl, by decide, rfl, by decide, rfl, by decide,
    create_binding_alloc_failure_rolls_back heapBindingFail 99 5 6 [] rfl (by decide) rfl
      (by decide) rfl (by decide)⟩

/-- C5: on a fully initialised handle whose `ref` is `n >= 1`,
`IDPLobbySPImpl_Release` returns `n - 1`.  If `n >= 2` the memory is unchanged
except for the `ref` field of the shell, and no service call is made.  If
`n = 1` the service calls made are, in this order: free the session-binding
block, delete the critical section, free the lock block, free the shell; and
afterwards none of the three blocks is live. -/
theorem release_returns_and_tears_down (h : Heap) (p : Ptr) (o : IDPLobbySPImpl)
    (hv : FullyInitialised h p o) (hn : 1 ≤ o.ref) :
    ∃ h', IDPLobbySPImpl_Release h p = Except.ok ((o.ref - 1).toNat, h') ∧
      (((o.ref - 1).toNat : Int) = o.ref - 1) ∧
      (2 ≤ o.ref →
        h' = { h with cells := store h.cells p (Block.impl { o with ref := o.ref - 1 }) }) ∧
      (o.ref = 1 →
        h'.trace = h.trace ++
          [Event.free o.sp, Event.csDelete o.unk, Event.free o.unk, Event.free p] ∧
        find? h'.cells o.sp = none ∧ find? h'.cells o.unk = none ∧
        find? h'.cells p = none) := by
  by_cases h2 : 2 ≤ o.ref
  · refine ⟨_, release_keep h p o hv h2, by omega, fun _ => rfl, ?_⟩
    intro h1
    omega
  · have h1 : o.ref = 1 := by omega
    obtain ⟨hfin, hrun, htrace, -, hs, hu, hp, -⟩ := release_last h p o hv h1
    refine ⟨hfin, ?_, by omega, ?_, ?_⟩
    · simpa [h1] using hrun
    · intro h2b
      omega
    · intro _
      exact ⟨htrace, hs, hu, hp⟩

/-- C5 at a concrete input: the last release of the handle created on
`heap0`. -/
theorem release_returns_and_tears_down_witness :
    FullyInitialised heapCreated 5 shell1 ∧ 1 ≤ shell1.ref ∧
    ∃ h', IDPLobbySPImpl_Release heapCreated 5 = Except.ok ((shell1.ref - 1).toNat, h') ∧
      (((shell1.ref - 1).toNat : Int) = shell1.ref - 1) ∧
      (2 ≤ shell1.ref →
        h' = { heapCreated with
          cells := store heapCreated.cells 5 (Block.impl { shell1 with ref := shell1.ref - 1 }) }) ∧
      (shell1.ref = 1 →
        h'.trace = heapCreated.trace ++
          [Event.free shell1.sp, Event.csDelete shell1.unk, Event.free shell1.unk,
           Event.free 5] ∧
        find? h'.cells shell1.sp = none ∧ find? h'.cells shell1.unk = none ∧
        find? h'.cells 5 = none) :=
  ⟨heapCreated_valid, by decide,
    release_returns_and_tears_down heapCreated 5 shell1 heapCreated_valid (by decide)⟩

/-- C6 fails as stated: on the fully initialised handle of `heapMax`, whose
`ref` is 2147483647, `IDPLobbySPImpl_QueryInterface` with `IID_IUnknown`
returns `S_OK` and leaves `ref` at -2147483648, not at 2147483648. -/
theorem query_at_max_count_wraps :
    FullyInitialised heapMax 5 shellMax ∧ shellMax.ref = 2147483647 ∧
    IDPLobbySPImpl_QueryInterface heapMax 5 IID_IUnknown =
      Except.ok (S_OK, 5,
        { heapMax with
          cells := [(7, Block.sp ⟨99⟩),
                    (6, Block.unk ⟨⟨some ⟨some DPLSP_lock_name⟩⟩⟩),
                    (5, Block.impl ⟨VtblPtr.dpLobbySPVT, -2147483648, 6, 7⟩)] }) ∧
    (-2147483648 : Int) ≠ shellMax.ref + 1 :=
  ⟨heapMax_valid, rfl, rfl, by decide⟩

/-- C6 as amended: on a fully initialised handle whose `ref` is `n`,
`IDPLobbySPImpl_QueryInterface` with `IID_IUnknown` or `IID_IDPLobbySP`
returns `S_OK`, sets `*ppv` to the handle itself and changes nothing but the
`ref` field, which becomes `n + 1` when `n < 2147483647` and wraps to
-2147483648 when `n = 2147483647`; with any other identifier it returns
`E_NOINTERFACE`, sets `*ppv` to null and leaves the memory, hence `ref`,
unchanged. -/
theorem query_interface_counts (h : Heap) (p : Ptr) (o : IDPLobbySPImpl) (riid : GUID)
    (hv : FullyInitialised h p o) :
    ((riid = IID_IUnknown ∨ riid = IID_IDPLobbySP) →
      IDPLobbySPImpl_QueryInterface h p riid =
        Except.ok (S_OK, p,
          { h with
            cells := store h.cells p (Block.impl { o with ref := wrapLONG (o.ref + 1) }) }) ∧
      (o.ref < 2147483647 → wrapLONG (o.ref + 1) = o.ref + 1) ∧
      (o.ref = 2147483647 → wrapLONG (o.ref + 1) = -2147483648)) ∧
    ((riid ≠ IID_IUnknown ∧ riid ≠ IID_IDPLobbySP) →
      IDPLobbySPImpl_QueryInterface h p riid = Except.ok (E_NOINTERFACE, NULL, h) ∧
      find? h.cells p = some (Block.impl o)) := by
  have hr := hv.ref_range
  refine ⟨fun hrec => ⟨query_recognised h p o riid hv hrec, ?_, ?_⟩,
    fun hne => ⟨query_unrecognised h p riid hne.1 hne.2, hv.shell⟩⟩
  · intro hlt
    exact wrapLONG_of_range _ (by omega) (by omega)
  · intro he
    rw [he]
    decide

/-- C6 as amended, at a concrete input: the handle created on `heap0`. -/
theorem query_interface_counts_witness :
    FullyInitialised heapCreated 5 shell1 ∧
    ((IID_IUnknown = IID_IUnknown ∨ IID_IUnknown = IID_IDPLobbySP) →
      IDPLobbySPImpl_QueryInterface heapCreated 5 IID_IUnknown =
        Except.ok (S_OK, 5,
          { heapCreated with
            cells := store heapCreated.cells 5
                       (Block.impl { shell1 with ref := wrapLONG (shell1.ref + 1) }) }) ∧
      (shell1.ref < 2147483647 → wrapLONG (shell1.ref + 1) = shell1.ref + 1) ∧
      (shell1.ref = 2147483647 → wrapLONG (shell1.ref + 1) = -2147483648)) ∧
    ((IID_IUnknown ≠ IID_IUnknown ∧ IID_IUnknown ≠ IID_IDPLobbySP) →
      IDPLobbySPImpl_QueryInterface heapCreated 5 IID_IUnknown =
        Except.ok (E_NOINTERFACE, NULL, heapCreated) ∧
      find? heapCreated.cells 5 = some (Block.impl shell1)) :=
  ⟨heapCreated_valid, query_interface_counts heapCreated 5 shell1 IID_IUnknown heapCreated_valid⟩

/-- C8: each of the 16 domain slots of `dpLobbySPVT`, called on any handle
with any payload pointer (null included), returns `DP_OK` and hands back the
memory unchanged, so the shell, its table pointer and `ref`, the lock block,
the session-binding block and the payload are all as before. -/
theorem domain_operations_are_stubs (h : Heap) (iface payload : Ptr) :
    dpLobbySPVT.AddGroupToGroup h iface payload = (DP_OK, h) ∧
    dpLobbySPVT.AddPlayerToGroup h iface payload = (DP_OK, h) ∧
    dpLobbySPVT.CreateGroup h iface payload = (DP_OK, h) ∧
    dpLobbySPVT.CreateGroupInGroup h iface payload = (DP_OK, h) ∧
    dpLobbySPVT.DeleteGroupFromGroup h iface payload = (DP_OK, h) ∧
    dpLobbySPVT.DeletePlayerFromGroup h iface payload = (DP_OK, h) ∧
    dpLobbySPVT.DestroyGroup h iface payload = (DP_OK, h) ∧
    dpLobbySPVT.EnumSessionsResponse h iface payload = (DP_OK, h) ∧
    dpLobbySPVT.GetSPDataPointer h iface payload = (DP_OK, h) ∧
    dpLobbySPVT.HandleMessage h iface payload = (DP_OK, h) ∧
    dpLobbySPVT.SendChatMessage h iface payload = (DP_OK, h) ∧
    dpLobbySPVT.SetGroupName h iface payload = (DP_OK, h) ∧
    dpLobbySPVT.SetPlayerName h iface payload = (DP_OK, h) ∧
    dpLobbySPVT.SetSessionDesc h iface payload = (DP_OK, h) ∧
    dpLobbySPVT.SetSPDataPointer h iface payload = (DP_OK, h) ∧
    dpLobbySPVT.StartSession h iface payload = (DP_OK, h) :=
  ⟨rfl, rfl, rfl, rfl, rfl, rfl, rfl, rfl, rfl, rfl, rfl, rfl, rfl, rfl, rfl, rfl⟩

/-- C9 fails as stated: on `heap0`, whose allocator grants all three requests
(creation with `IID_IDPLobbySP` returns `S_OK`), creation with the base
identifier `IID_IUnknown` returns `E_NOINTERFACE` and a null handle. -/
theorem create_rejects_base_identifier :
    DPLSP_CreateInterface heap0 IID_IDPLobbySP 99 = Except.ok (S_OK, 5, heapCreated) ∧
    DPLSP_CreateInterface heap0 IID_IUnknown 99 =
      Except.ok (E_NOINTERFACE, NULL,
        { cells := [], plan := [some 6, some 7],
          trace := [Event.alloc BlockKind.impl 5, Event.free 5] }) ∧
    E_NOINTERFACE ≠ S_OK :=
  ⟨rfl, rfl, by decide⟩

/-- C9 as amended: `DPLSP_CreateInterface` recognises exactly one identifier,
`IID_IDPLobbySP`.  With all three allocations granted, creation with
`IID_IDPLobbySP` returns `S_OK` and a handle bound to the table with `ref` 1,
and creation with any other identifier, `IID_IUnknown` included, returns
`E_NOINTERFACE` and a null handle. -/
theorem create_recognises_one_identifier (h : Heap) (riid : GUID) (dp p1 p2 p3 : Ptr)
    (rest : List (Option Ptr))
    (hplan : h.plan = some p1 :: some p2 :: some p3 :: rest)
    (n1 : p1 ≠ NULL) (f1 : find? h.cells p1 = none)
    (n2 : p2 ≠ NULL) (f2 : find? h.cells p2 = none) (d21 : p2 ≠ p1)
    (n3 : p3 ≠ NULL) (f3 : find? h.cells p3 = none) (d31 : p3 ≠ p1) (d32 : p3 ≠ p2) :
    (riid = IID_IDPLobbySP →
      ∃ h', DPLSP_CreateInterface h riid dp = Except.ok (S_OK, p1, h') ∧
        find? h'.cells p1 = some (Block.impl ⟨VtblPtr.dpLobbySPVT, 1, p2, p3⟩)) ∧
    (riid ≠ IID_IDPLobbySP →
      DPLSP_CreateInterface h riid dp =
        Except.ok (E_NOINTERFACE, NULL,
          { cells := h.cells, plan := some p2 :: some p3 :: rest,
            trace := h.trace ++ [Event.alloc BlockKind.impl p1, Event.free p1] })) ∧
    IID_IUnknown ≠ IID_IDPLobbySP := by
  refine ⟨?_, fun hne => create_unsupported_path h riid dp p1 _ hne hplan n1 f1, by decide⟩
  intro he
  subst he
  refine ⟨_, create_success_path h dp p1 p2 p3 rest hplan n1 f1 n2 f2 d21 n3 f3 d31 d32, ?_⟩
  have e1 : ¬ p3 = p1 := d31
  have e2 : ¬ p2 = p1 := d21
  simp [find?, e1, e2]

/-- C9 as amended, at a concrete input: the base identifier on `heap0`. -/
theorem create_recognises_one_identifier_witness :
    heap0.plan = some 5 :: some 6 :: some 7 :: [] ∧
    ((IID_IUnknown = IID_IDPLobbySP →
      ∃ h', DPLSP_CreateInterface heap0 IID_IUnknown 99 = Except.ok (S_OK, 5, h') ∧
        find? h'.cells 5 = some (Block.impl ⟨VtblPtr.dpLobbySPVT, 1, 6, 7⟩)) ∧
    (IID_IUnknown ≠ IID_IDPLobbySP →
      DPLSP_CreateInterface heap0 IID_IUnknown 99 =
        Except.ok (E_NOINTERFACE, NULL,
          { cells := heap0.cells, plan := some 6 :: some 7 :: [],
            trace := heap0.trace ++ [Event.alloc BlockKind.impl 5, Event.free 5] })) ∧
    IID_IUnknown ≠ IID_IDPLobbySP) :=
  ⟨rfl, create_recognises_one_identifier heap0 IID_IUnknown 99 5 6 7 [] rfl
    (by decide) rfl (by decide) rfl (by decide) (by decide) rfl (by decide) (by decide)⟩

/-- C7 fails as stated, on the handle created on `heap0`.  A sequence of
2147483647 `add_ref` calls keeps the specified count positive before every
call and brings it to 2147483648, yet leaves `ref` at -2147483648.  A sequence
of 4294967295 `add_ref` calls keeps the specified count positive before every
call and brings it to 4294967296, yet its last call returns 0 and leaves `ref`
at 0. -/
theorem add_ref_sequence_wraps :
    DPLSP_CreateInterface heap0 IID_IDPLobbySP 99 = Except.ok (S_OK, 5, heapCreated) ∧
    ((∀ k, k < 2147483647 →
        0 < netCount ((List.replicate 2147483647 RefOp.add_ref).take k)) ∧
      netCount (List.replicate 2147483647 RefOp.add_ref) = 2147483648 ∧
      ∃ rets hfin,
        runOps heapCreated 5 (List.replicate 2147483647 RefOp.add_ref) =
          Except.ok (rets, hfin) ∧
        find? hfin.cells 5 = some (Block.impl ⟨VtblPtr.dpLobbySPVT, -2147483648, 6, 7⟩)) ∧
    ((∀ k, k < 4294967295 →
        0 < netCount ((List.replicate 4294967295 RefOp.add_ref).take k)) ∧
      netCount (List.replicate 4294967295 RefOp.add_ref) = 4294967296 ∧
      ∃ rets hfin,
        runOps heapCreated 5 (List.replicate 4294967295 RefOp.add_ref) =
          Except.ok (rets, hfin) ∧
        rets.getLast? = some 0 ∧
        find? hfin.cells 5 = some (Block.impl ⟨VtblPtr.dpLobbySPVT, 0, 6, 7⟩)) := by
  refine ⟨rfl, ⟨?_, ?_, ?_⟩, ⟨?_, ?_, ?_⟩⟩
  · intro k _
    rw [List.take_replicate, netCount_replicate_add]
    omega
  · rw [netCount_replicate_add]
    norm_num
  · obtain ⟨hfin, hrun, hfind, -⟩ :=
      runOps_add_refs 5 2147483647 heapCreated shell1 heapCreated_valid
    refine ⟨_, hfin, hrun, ?_⟩
    rw [hfind]
    have hz : wrapLONG (shell1.ref + ((2147483647 : Nat) : Int)) = -2147483648 := by decide
    rw [hz]
    rfl
  · intro k _
    rw [List.take_replicate, netCount_replicate_add]
    omega
  · rw [netCount_replicate_add]
    norm_num
  · obtain ⟨hfin, hrun, hfind, -⟩ :=
      runOps_add_refs 5 4294967295 heapCreated shell1 heapCreated_valid
    refine ⟨_, hfin, hrun, ?_, ?_⟩
    · have hl := getLast?_map_range_succ
        (fun (i : Nat) => toULONG (wrapLONG (shell1.ref + ((i : Int) + 1)))) 4294967294
      have hz : toULONG (wrapLONG (shell1.ref + (((4294967294 : Nat) : Int) + 1))) = 0 := by
        decide
      rw [hz] at hl
      exact hl
    · rw [hfind]
      have hz : wrapLONG (shell1.ref + ((4294967295 : Nat) : Int)) = 0 := by decide
      rw [hz]
      rfl

/-- C7 as amended: take a freshly created handle and a finite sequence of
`add_ref`/`release` calls in which the count `1 + (#add_ref) - (#release)` is
positive before every call and never exceeds 2147483647.  Then after each
initial segment of the sequence every call made so far has returned the count
reached at that call; while the count is positive the shell holds it in `ref`
and no service call has been made; and when the count is 0 the service calls
made are exactly those of one teardown and the handle is no longer live. -/
theorem refcount_sequence_bounded (h : Heap) (riid : GUID) (dp p : Ptr) (h1 : Heap)
    (hc : DPLSP_CreateInterface h riid dp = Except.ok (S_OK, p, h1))
    (ops : List RefOp)
    (hlive : ∀ k, k < ops.length → 0 < netCount (ops.take k))
    (hmax : ∀ k, k ≤ ops.length → netCount (ops.take k) ≤ 2147483647) :
    ∃ o1, find? h1.cells p = some (Block.impl o1) ∧ o1.ref = 1 ∧
      ∀ k, k ≤ ops.length →
        ∃ hk, runOps h1 p (ops.take k) =
            Except.ok ((List.range k).map (fun i => (netCount (ops.take (i + 1))).toNat), hk) ∧
          (0 < netCount (ops.take k) →
            hk.trace = h1.trace ∧
            find? hk.cells p = some (Block.impl { o1 with ref := netCount (ops.take k) })) ∧
          (netCount (ops.take k) = 0 →
            hk.trace = h1.trace ++ teardownEvents p o1 ∧
            find? hk.cells p = none ∧ find? hk.cells o1.unk = none ∧
            find? hk.cells o1.sp = none) := by
  obtain ⟨u, s, hv, -, -⟩ := create_ok_valid h riid dp p h1 hc
  refine ⟨⟨VtblPtr.dpLobbySPVT, 1, u, s⟩, hv.shell, rfl, ?_⟩
  intro k hk
  have hlen : (ops.take k).length = k := by
    rw [List.length_take]
    omega
  have hl1 : ∀ j, j < (ops.take k).length → 0 < netFrom 1 ((ops.take k).take j) := by
    intro j hj
    rw [hlen] at hj
    rw [List.take_take, min_eq_left (by omega)]
    exact hlive j (by omega)
  have hm1 : ∀ j, j ≤ (ops.take k).length → netFrom 1 ((ops.take k).take j) ≤ 2147483647 := by
    intro j hj
    rw [hlen] at hj
    rw [List.take_take, min_eq_left (by omega)]
    exact hmax j (by omega)
  obtain ⟨hfin, hrun, -, hA, hB⟩ := runOps_core p (ops.take k) h1 _ hv (by simp) hl1 hm1
  refine ⟨hfin, ?_, ?_, ?_⟩
  · rw [hrun, hlen]
    congr 2
    apply List.map_congr_left
    intro i hi
    rw [List.mem_range] at hi
    rw [List.take_take, min_eq_left (by omega)]
    rfl
  · intro hpos
    obtain ⟨ht, hv2⟩ := hA hpos
    exact ⟨ht, hv2.shell⟩
  · intro hz
    exact hB hz

/-- C7 as amended, at the scenario of the specification: create, `add_ref`,
`release`, `release` return 2, 1, 0 and end with one teardown. -/
theorem refcount_sequence_bounded_witness :
    DPLSP_CreateInterface heap0 IID_IDPLobbySP 99 = Except.ok (S_OK, 5, heapCreated) ∧
    (∀ k, k < scenarioOps.length → 0 < netCount (scenarioOps.take k)) ∧
    (∀ k, k ≤ scenarioOps.length → netCount (scenarioOps.take k) ≤ 2147483647) ∧
    runOps heapCreated 5 scenarioOps =
      Except.ok ([2, 1, 0],
        { cells := [], plan := [], trace := heapCreated.trace ++ teardownEvents 5 shell1 }) ∧
    ∃ o1, find? heapCreated.cells 5 = some (Block.impl o1) ∧ o1.ref = 1 ∧
      ∀ k, k ≤ scenarioOps.length →
        ∃ hk, runOps heapCreated 5 (scenarioOps.take k) =
            Except.ok ((List.range k).map
              (fun i => (netCount (scenarioOps.take (i + 1))).toNat), hk) ∧
          (0 < netCount (scenarioOps.take k) →
            hk.trace = heapCreated.trace ∧
            find? hk.cells 5 =
              some (Block.impl { o1 with ref := netCount (scenarioOps.take k) })) ∧
          (netCount (scenarioOps.take k) = 0 →
            hk.trace = heapCreated.trace ++ teardownEvents 5 o1 ∧
            find? hk.cells 5 = none ∧ find? hk.cells o1.unk = none ∧
            find? hk.cells o1.sp = none) :=
  ⟨rfl, by decide, by decide, rfl,
    refcount_sequence_bounded heap0 IID_IDPLobbySP 99 5 heapCreated rfl scenarioOps
      (by decide) (by decide)⟩

end LobbySP
